import Mathlib

/-!
# WhisperNative: the JNI shim `whisper_jni.cpp`

A shallow embedding of `src/native/src/main/cpp/whisper_jni.cpp`.

The translation unit defines two entry points,
`Java_com_whispertflite_native_WhisperNative_getVersionInfo` and
`Java_com_whispertflite_native_WhisperNative_isSupported`, and three macros,
`LOG_TAG`, `LOGI` and `LOGE`.  Everything else it touches belongs to the
platform: the function table behind `JNIEnv*`, the log function
`__android_log_print`, and the constants of `jni.h` and `android/log.h`.

* The platform functions are parameters of the embedding: `JNIEnv` is a record
  holding `NewStringUTF`, `LogSink` a record holding `__android_log_print`.
  Each is an arbitrary total function on its own part of the process state.
* The process state is explicit: `World` pairs the managed side (`JVM`: the
  string objects and the pending exception) with the state of the log sink.
* C strings are byte lists (bytes are `Nat`); a `const char*` is the content of
  memory from the pointer on, and denotes the bytes before the first NUL.
* Java strings are lists of UTF-16 code units.
* The entry points come a second time with the exceptions of C++: the native
  heap is a parameter, and a call ends in a value or in a thrown exception.
-/

namespace WhisperNative

/-! ## Platform constants and types -/

/-- Modelled from the spec: the severities of the platform log sink.  The spec
names the informational and the error severity; `android/log.h`, which is not
under `src/`, declares them as members of this enumeration, in this order. -/
inductive android_LogPriority
  | ANDROID_LOG_UNKNOWN
  | ANDROID_LOG_DEFAULT
  | ANDROID_LOG_VERBOSE
  | ANDROID_LOG_DEBUG
  | ANDROID_LOG_INFO
  | ANDROID_LOG_WARN
  | ANDROID_LOG_ERROR
  | ANDROID_LOG_FATAL
  | ANDROID_LOG_SILENT
  deriving DecidableEq, Repr

/-- The `jboolean` of the bridge: an unsigned 8-bit value. -/
abbrev jboolean := Nat

/-- Modelled from the spec: the boolean `false` of the bridge (`JNI_FALSE` of
`jni.h`, which is not under `src/`). -/
def JNI_FALSE : jboolean := 0

/-- The boolean the managed caller sees for a `jboolean`: zero is `false`,
every other 8-bit value is `true`. -/
def jboolean.toBool (b : jboolean) : Bool := b % 256 != 0

/-- A reference handed across the bridge: `none` is `NULL`, `some n` names the
object `n` of the managed heap. -/
abbrev jobject := Option Nat

/-- A reference to a string object (`jstring` is a `jobject`). -/
abbrev jstring := jobject

/-- The managed side of the process, as far as the shim can observe it: the
string objects created so far (each a list of UTF-16 code units; reference `n`
is the `n`-th of them) and the pending exception, if any (by class name). -/
structure JVM where
  strings : List (List Nat)
  pending : Option String
  deriving DecidableEq, Repr

/-- The content of the string object a reference points to; `none` for `NULL`
and for a reference to nothing. -/
def JVM.deref (j : JVM) : jstring → Option (List Nat)
  | none => none
  | some n => j.strings[n]?

/-- The function table behind `JNIEnv*`, restricted to the one entry the shim
calls.  `NewStringUTF` takes the memory its `const char*` argument points to
and the managed state, and returns a reference and the new managed state. -/
structure JNIEnv where
  NewStringUTF : List Nat → JVM → jstring × JVM

/-- One line of the log: severity, tag and text. -/
structure LogLine where
  prio : android_LogPriority
  tag : String
  msg : String
  deriving DecidableEq, Repr

/-- The platform log function over a sink with state `L`: it takes severity,
tag and format text, and returns an `int` and the new state of the sink. -/
structure LogSink (L : Type) where
  __android_log_print : android_LogPriority → String → String → L → Int × L

/-- The process state: the managed side and the log sink. -/
structure World (L : Type) where
  jvm : JVM
  log : L

/-! ## Text encodings -/

/-- UTF-8 encoding of one code point (the compiler stores a narrow string
literal in UTF-8). -/
def utf8EncodeChar (c : Nat) : List Nat :=
  if c < 0x80 then [c]
  else if c < 0x800 then [0xC0 + c / 64, 0x80 + c % 64]
  else if c < 0x10000 then [0xE0 + c / 4096, 0x80 + c / 64 % 64, 0x80 + c % 64]
  else [0xF0 + c / 262144, 0x80 + c / 4096 % 64, 0x80 + c / 64 % 64, 0x80 + c % 64]

/-- The bytes of a `std::string` initialised from a string literal. -/
def stdString (s : String) : List Nat :=
  s.toList.flatMap fun c => utf8EncodeChar c.toNat

/-- The memory `std::string::c_str()` points to: the bytes of the string
followed by a terminating NUL. -/
def c_str (s : String) : List Nat :=
  stdString s ++ [0]

/-- The C string a `const char*` denotes: the bytes before the first NUL. -/
def cstring (mem : List Nat) : List Nat :=
  mem.takeWhile fun b => b != 0

/-- Continuation byte `10xxxxxx`. -/
def isCont (b : Nat) : Bool := 0x80 ≤ b && b ≤ 0xBF

/-- Decoder of modified UTF-8, the encoding `NewStringUTF` expects, to UTF-16
code units: one byte for `0x01..0x7F`, two bytes for `0` and `0x80..0x7FF`,
three bytes for `0x800..0xFFFF`; nothing else is accepted. -/
def mutf8Decode : List Nat → Option (List Nat)
  | [] => some []
  | b0 :: rest =>
    if 0x01 ≤ b0 ∧ b0 ≤ 0x7F then
      (mutf8Decode rest).map fun us => b0 :: us
    else if 0xC0 ≤ b0 ∧ b0 ≤ 0xDF then
      match rest with
      | b1 :: rest1 =>
        let u := b0 % 32 * 64 + b1 % 64
        if isCont b1 ∧ (u = 0 ∨ 0x80 ≤ u) then
          (mutf8Decode rest1).map fun us => u :: us
        else none
      | [] => none
    else if 0xE0 ≤ b0 ∧ b0 ≤ 0xEF then
      match rest with
      | b1 :: b2 :: rest2 =>
        let u := b0 % 16 * 4096 + b1 % 64 * 64 + b2 % 64
        if isCont b1 ∧ isCont b2 ∧ 0x800 ≤ u then
          (mutf8Decode rest2).map fun us => u :: us
        else none
      | _ => none
    else none

/-- Decoder of standard UTF-8 to code points: shortest forms only, no
surrogates, nothing above `0x10FFFF`. -/
def utf8Decode : List Nat → Option (List Nat)
  | [] => some []
  | b0 :: rest =>
    if b0 ≤ 0x7F then
      (utf8Decode rest).map fun cs => b0 :: cs
    else if 0xC0 ≤ b0 ∧ b0 ≤ 0xDF then
      match rest with
      | b1 :: rest1 =>
        let c := b0 % 32 * 64 + b1 % 64
        if isCont b1 ∧ 0x80 ≤ c then
          (utf8Decode rest1).map fun cs => c :: cs
        else none
      | [] => none
    else if 0xE0 ≤ b0 ∧ b0 ≤ 0xEF then
      match rest with
      | b1 :: b2 :: rest2 =>
        let c := b0 % 16 * 4096 + b1 % 64 * 64 + b2 % 64
        if isCont b1 ∧ isCont b2 ∧ 0x800 ≤ c ∧ ¬ (0xD800 ≤ c ∧ c ≤ 0xDFFF) then
          (utf8Decode rest2).map fun cs => c :: cs
        else none
      | _ => none
    else if 0xF0 ≤ b0 ∧ b0 ≤ 0xF4 then
      match rest with
      | b1 :: b2 :: b3 :: rest3 =>
        let c := b0 % 8 * 262144 + b1 % 64 * 4096 + b2 % 64 * 64 + b3 % 64
        if isCont b1 ∧ isCont b2 ∧ isCont b3 ∧ 0x10000 ≤ c ∧ c ≤ 0x10FFFF then
          (utf8Decode rest3).map fun cs => c :: cs
        else none
      | _ => none
    else none

/-- UTF-16 code units of one code point. -/
def utf16EncodeChar (c : Nat) : List Nat :=
  if c < 0x10000 then [c]
  else [0xD800 + (c - 0x10000) / 1024, 0xDC00 + (c - 0x10000) % 1024]

/-- The UTF-16 code units of a text: what a Java string holding it contains. -/
def javaString (s : String) : List Nat :=
  s.toList.flatMap fun c => utf16EncodeChar c.toNat

/-! ## The translation unit -/

/-- Macro `LOG_TAG`, defined as `"WhisperNative"`. -/
def LOG_TAG : String := "WhisperNative"

/-- Macro `LOGI(...)`, defined as
`__android_log_print(ANDROID_LOG_INFO, LOG_TAG, __VA_ARGS__)`. -/
def LOGI {L : Type} (sink : LogSink L) (fmt : String) (log : L) : Int × L :=
  sink.__android_log_print android_LogPriority.ANDROID_LOG_INFO LOG_TAG fmt log

/-- Macro `LOGE(...)`, defined as
`__android_log_print(ANDROID_LOG_ERROR, LOG_TAG, __VA_ARGS__)`.  No function of
the translation unit uses it. -/
def LOGE {L : Type} (sink : LogSink L) (fmt : String) (log : L) : Int × L :=
  sink.__android_log_print android_LogPriority.ANDROID_LOG_ERROR LOG_TAG fmt log

/-- The local `std::string hello` of `getVersionInfo`. -/
def hello : String := "WhisperNative v1.1 - whisper.cpp integration placeholder"

/-- Entry point `Java_com_whispertflite_native_WhisperNative_getVersionInfo`: builds
`hello` and returns `env->NewStringUTF(hello.c_str())`.  The receiver is
unnamed in the source and unused. -/
def Java_com_whispertflite_native_WhisperNative_getVersionInfo {L : Type}
    (env : JNIEnv) (_thiz : jobject) (w : World L) : jstring × World L :=
  let r := env.NewStringUTF (c_str hello) w.jvm
  (r.1, { w with jvm := r.2 })

/-- Entry point `Java_com_whispertflite_native_WhisperNative_isSupported`: one `LOGI`
whose result is discarded, then `return JNI_FALSE`.  Neither parameter is
used. -/
def Java_com_whispertflite_native_WhisperNative_isSupported {L : Type}
    (sink : LogSink L) (_env : JNIEnv) (_thiz : jobject) (w : World L) :
    jboolean × World L :=
  let r := LOGI sink "Native whisper support check - placeholder implementation" w.log
  (JNI_FALSE, { w with log := r.2 })

/-! ## The entry points with the exceptions of C++ -/

/-- The native heap as `std::string` sees it: `allocate n` tells whether the
library obtains storage for a string of `n` bytes. -/
structure NativeHeap where
  allocate : Nat → Bool

/-- How a call of a native function ends: it returns a value, or a C++
exception, given by the name of its class, leaves the function. -/
inductive Outcome (α : Type)
  | returned (a : α)
  | thrown (what : String)

/-- Construction of a `std::string` from a string literal: the string, or
`std::bad_alloc` when storage for its bytes is not obtained. -/
def std_string (heap : NativeHeap) (lit : String) : Outcome String :=
  if heap.allocate (stdString lit).length then Outcome.returned lit
  else Outcome.thrown "std::bad_alloc"

/-- Entry point `Java_com_whispertflite_native_WhisperNative_getVersionInfo`
with its exceptions: line 13 builds `hello`, and an exception of the
construction leaves the function, which has no handler; line 14 returns
`env->NewStringUTF(hello.c_str())`, a call through the C function table. -/
def Java_com_whispertflite_native_WhisperNative_getVersionInfo_outcome {L : Type}
    (heap : NativeHeap) (env : JNIEnv) (_thiz : jobject) (w : World L) :
    Outcome (jstring × World L) :=
  match std_string heap "WhisperNative v1.1 - whisper.cpp integration placeholder" with
  | Outcome.thrown what => Outcome.thrown what
  | Outcome.returned hello =>
    let r := env.NewStringUTF (c_str hello) w.jvm
    Outcome.returned (r.1, { w with jvm := r.2 })

/-- Entry point `Java_com_whispertflite_native_WhisperNative_isSupported` with
its exceptions: the body is one call of the C function `__android_log_print`
and a `return`; it builds no object. -/
def Java_com_whispertflite_native_WhisperNative_isSupported_outcome {L : Type}
    (sink : LogSink L) (_env : JNIEnv) (_thiz : jobject) (w : World L) :
    Outcome (jboolean × World L) :=
  let r := LOGI sink "Native whisper support check - placeholder implementation" w.log
  Outcome.returned (JNI_FALSE, { w with log := r.2 })

/-- A native heap with no storage left. -/
def exhaustedHeap : NativeHeap where
  allocate _ := false

/-- A native heap that grants every request. -/
def roomyHeap : NativeHeap where
  allocate _ := true

/-! ## Sequences of calls -/

/-- One call from the managed side, with the parameters the bridge supplies. -/
inductive Call
  | getVersionInfo (env : JNIEnv) (thiz : jobject)
  | isSupported (env : JNIEnv) (thiz : jobject)

/-- Whether two calls are calls of the same operation. -/
def Call.sameOp : Call → Call → Bool
  | .getVersionInfo _ _, .getVersionInfo _ _ => true
  | .isSupported _ _, .isSupported _ _ => true
  | _, _ => false

/-- What the managed caller receives from a call: for `getVersionInfo` the
content of the returned string as it stands when the call returns (`none` when
the reference is `NULL`), for `isSupported` the boolean. -/
inductive Ret
  | text (s : Option (List Nat))
  | flag (b : jboolean)
  deriving DecidableEq, Repr

/-- Performs one call on the process state. -/
def step {L : Type} (sink : LogSink L) (c : Call) (w : World L) : Ret × World L :=
  match c with
  | .getVersionInfo env thiz =>
    let r := Java_com_whispertflite_native_WhisperNative_getVersionInfo env thiz w
    (Ret.text (r.2.jvm.deref r.1), r.2)
  | .isSupported env thiz =>
    let r := Java_com_whispertflite_native_WhisperNative_isSupported sink env thiz w
    (Ret.flag r.1, r.2)

/-- Performs a sequence of calls, one after the other, each on the state the
previous one left; returns what each call returned and the final state. -/
def run {L : Type} (sink : LogSink L) : List Call → World L → List Ret × World L
  | [], w => ([], w)
  | c :: cs, w =>
    let r := step sink c w
    let rs := run sink cs r.2
    (r.1 :: rs.1, rs.2)

/-- Whether a call is a call of the support probe. -/
def Call.isProbe : Call → Bool
  | .isSupported _ _ => true
  | .getVersionInfo _ _ => false

/-- The result the specification lays down for a call, whatever came before
it: the placeholder text for the version query, `false` for the support
probe. -/
def specRet : Call → Ret
  | .getVersionInfo _ _ =>
    Ret.text (some (javaString "WhisperNative v1.1 - whisper.cpp integration placeholder"))
  | .isSupported _ _ => Ret.flag 0

/-! ## Reference instances of the platform -/

/-- The contract of `NewStringUTF` when memory is available: on a C string
that is valid modified UTF-8 it returns a reference that is not `NULL`, to a
string object holding the decoded code units, leaves the pending exception as
it was, and keeps every string object that existed. -/
def JNIEnv.Conforms (env : JNIEnv) : Prop :=
  ∀ (mem units : List Nat) (j : JVM), mutf8Decode (cstring mem) = some units →
    (env.NewStringUTF mem j).1 ≠ none ∧
    (env.NewStringUTF mem j).2.deref (env.NewStringUTF mem j).1 = some units ∧
    (env.NewStringUTF mem j).2.pending = j.pending ∧
    ∀ n, n < j.strings.length →
      (env.NewStringUTF mem j).2.deref (some n) = j.deref (some n)

/-- A function table that meets the contract: a valid C string is decoded into
a new string object, placed on the heap after `pad` other new (empty) string
objects; on anything else the call returns `NULL` and changes nothing. -/
def refEnv (pad : Nat) : JNIEnv where
  NewStringUTF mem j :=
    match mutf8Decode (cstring mem) with
    | some units =>
      (some (j.strings.length + pad),
        { j with strings := j.strings ++ (List.replicate pad [] ++ [units]) })
    | none => (none, j)

/-- A function table whose `NewStringUTF` finds no memory: it returns `NULL`
and leaves an `OutOfMemoryError` pending. -/
def oomEnv : JNIEnv where
  NewStringUTF _ j := (none, { j with pending := some "java.lang.OutOfMemoryError" })

/-- A log sink that keeps every line it is given, in order, and returns
`ret`. -/
def recordingSink (ret : Int) : LogSink (List LogLine) where
  __android_log_print prio tag fmt log := (ret, log ++ [⟨prio, tag, fmt⟩])

/-- A log sink that accepts nothing and returns `ret`. -/
def droppingSink (ret : Int) : LogSink (List LogLine) where
  __android_log_print _ _ _ log := (ret, log)

/-- A process that has not done anything yet. -/
def World.empty : World (List LogLine) := ⟨⟨[], none⟩, []⟩

/-- A sequence of calls: version query, support probe (through a function
table that has no memory), version query through another function table. -/
def sessionA : List Call :=
  [Call.getVersionInfo (refEnv 0) none, Call.isSupported oomEnv (some 1),
   Call.getVersionInfo (refEnv 2) (some 5)]

/-- Another sequence of calls: two support probes, then a version query. -/
def sessionB : List Call :=
  [Call.isSupported (refEnv 0) none, Call.isSupported (refEnv 1) (some 7),
   Call.getVersionInfo (refEnv 1) (some 7)]

/-- A process with two strings on the heap and three lines in the log. -/
def World.used : World (List LogLine) :=
  ⟨⟨[[104, 105], []], none⟩,
   [⟨android_LogPriority.ANDROID_LOG_WARN, "Other", "a"⟩,
    ⟨android_LogPriority.ANDROID_LOG_INFO, "WhisperNative", "b"⟩,
    ⟨android_LogPriority.ANDROID_LOG_ERROR, "Other", "c"⟩]⟩

/-! ## Lemmas on the encodings -/

theorem mutf8Decode_cons_ascii (b : Nat) (rest : List Nat) (hb : 1 ≤ b ∧ b ≤ 0x7F) :
    mutf8Decode (b :: rest) = (mutf8Decode rest).map fun us => b :: us := by
  rcases rest with _ | ⟨b1, _ | ⟨b2, rest2⟩⟩ <;>
    exact (if_pos hb : (if 1 ≤ b ∧ b ≤ 0x7F then _ else _) = _)

theorem utf8Decode_cons_ascii (b : Nat) (rest : List Nat) (hb : b ≤ 0x7F) :
    utf8Decode (b :: rest) = (utf8Decode rest).map fun cs => b :: cs := by
  rcases rest with _ | ⟨b1, _ | ⟨b2, _ | ⟨b3, rest3⟩⟩⟩ <;>
    exact (if_pos hb : (if b ≤ 0x7F then _ else _) = _)

theorem mutf8Decode_ascii (bs : List Nat) (h : ∀ b ∈ bs, 1 ≤ b ∧ b ≤ 0x7F) :
    mutf8Decode bs = some bs := by
  induction bs with
  | nil => rfl
  | cons b rest ih =>
    have hb := h b (List.mem_cons_self b rest)
    have hr := ih fun x hx => h x (List.mem_cons_of_mem b hx)
    rw [mutf8Decode_cons_ascii b rest hb, hr]
    rfl

theorem utf8Decode_ascii (bs : List Nat) (h : ∀ b ∈ bs, b ≤ 0x7F) :
    utf8Decode bs = some bs := by
  induction bs with
  | nil => rfl
  | cons b rest ih =>
    have hb := h b (List.mem_cons_self b rest)
    have hr := ih fun x hx => h x (List.mem_cons_of_mem b hx)
    rw [utf8Decode_cons_ascii b rest hb, hr]
    rfl

theorem cstring_append_nul (bs tail : List Nat) (h : ∀ b ∈ bs, b ≠ 0) :
    cstring (bs ++ 0 :: tail) = bs := by
  induction bs with
  | nil => rfl
  | cons b rest ih =>
    have hb : (b != 0) = true := by simpa using h b (List.mem_cons_self b rest)
    have hr := ih fun x hx => h x (List.mem_cons_of_mem b hx)
    unfold cstring at hr ⊢
    rw [List.cons_append, List.takeWhile_cons, hb, if_pos rfl, hr]

theorem stdString_hello :
    stdString hello =
      [87, 104, 105, 115, 112, 101, 114, 78, 97, 116, 105, 118, 101, 32, 118, 49, 46, 49,
       32, 45, 32, 119, 104, 105, 115, 112, 101, 114, 46, 99, 112, 112, 32, 105, 110, 116,
       101, 103, 114, 97, 116, 105, 111, 110, 32, 112, 108, 97, 99, 101, 104, 111, 108,
       100, 101, 114] := by
  decide

/-! ## Facts about the literal of `getVersionInfo` -/

theorem hello_printable : ∀ b ∈ stdString hello, 0x20 ≤ b ∧ b ≤ 0x7E := by
  rw [stdString_hello]
  decide

theorem cstring_c_str_hello : cstring (c_str hello) = stdString hello :=
  cstring_append_nul (stdString hello) [] fun b hb => by
    have := hello_printable b hb
    omega

theorem javaString_hello : javaString hello = stdString hello := by
  decide

theorem hello_decodes : mutf8Decode (cstring (c_str hello)) = some (javaString hello) := by
  rw [cstring_c_str_hello, javaString_hello]
  exact mutf8Decode_ascii (stdString hello) fun b hb => by
    have := hello_printable b hb
    omega

/-! ## Facts about the reference instances -/

theorem refEnv_conforms (pad : Nat) : (refEnv pad).Conforms := by
  intro mem units j hdec
  refine ⟨?_, ?_, ?_, ?_⟩
  · simp [refEnv, hdec]
  · simp only [refEnv, hdec, JVM.deref]
    rw [List.getElem?_append_right (Nat.le_add_right _ _), Nat.add_sub_cancel_left]
    rw [List.getElem?_append_right (by simp)]
    simp
  · simp [refEnv, hdec]
  · intro n hn
    simp only [refEnv, hdec, JVM.deref]
    exact List.getElem?_append_left hn

theorem oomEnv_returns_null {L : Type} (thiz : jobject) (w : World L) :
    (Java_com_whispertflite_native_WhisperNative_getVersionInfo oomEnv thiz w).1 = none ∧
    (Java_com_whispertflite_native_WhisperNative_getVersionInfo oomEnv thiz w).2.jvm.pending
      = some "java.lang.OutOfMemoryError" :=
  ⟨rfl, rfl⟩

/-! ## The two entry points, one call at a time -/

theorem getVersionInfo_spec {L : Type} (env : JNIEnv) (h : env.Conforms)
    (thiz : jobject) (w : World L) :
    (Java_com_whispertflite_native_WhisperNative_getVersionInfo env thiz w).1 ≠ none ∧
    (Java_com_whispertflite_native_WhisperNative_getVersionInfo env thiz w).2.jvm.deref
      (Java_com_whispertflite_native_WhisperNative_getVersionInfo env thiz w).1
        = some (javaString hello) ∧
    (Java_com_whispertflite_native_WhisperNative_getVersionInfo env thiz w).2.jvm.pending
      = w.jvm.pending ∧
    (Java_com_whispertflite_native_WhisperNative_getVersionInfo env thiz w).2.log = w.log := by
  obtain ⟨h1, h2, h3, -⟩ := h (c_str hello) (javaString hello) w.jvm hello_decodes
  exact ⟨h1, h2, h3, rfl⟩

theorem isSupported_format_is_plain :
    '%' ∉ "Native whisper support check - placeholder implementation".toList := by
  decide

theorem isSupported_spec {L : Type} (sink : LogSink L) (env : JNIEnv) (thiz : jobject)
    (w : World L) :
    Java_com_whispertflite_native_WhisperNative_isSupported sink env thiz w =
      (JNI_FALSE,
        { w with log := (sink.__android_log_print android_LogPriority.ANDROID_LOG_INFO
            "WhisperNative" "Native whisper support check - placeholder implementation"
            w.log).2 }) :=
  rfl

/-! ## The claims -/

/-- C1: every call of the support probe `isSupported`, whatever the environment
handle, the receiver object, the log sink and the process state, returns
`JNI_FALSE`, the value zero, which the managed caller reads as `false`. -/
theorem isSupported_returns_false {L : Type} (sink : LogSink L) (env : JNIEnv)
    (thiz : jobject) (w : World L) :
    (Java_com_whispertflite_native_WhisperNative_isSupported sink env thiz w).1 = JNI_FALSE ∧
    (Java_com_whispertflite_native_WhisperNative_isSupported sink env thiz w).1 = 0 ∧
    jboolean.toBool
      (Java_com_whispertflite_native_WhisperNative_isSupported sink env thiz w).1 = false :=
  ⟨rfl, rfl, rfl⟩

/-- C2: every call of the version query `getVersionInfo`, on an environment
whose `NewStringUTF` meets its contract, returns a reference that is not `NULL`,
to a string whose length is greater than zero (it has 56 code units). -/
theorem getVersionInfo_nonnull_nonempty {L : Type} (env : JNIEnv) (h : env.Conforms)
    (thiz : jobject) (w : World L) :
    ∃ (n : Nat) (units : List Nat),
      (Java_com_whispertflite_native_WhisperNative_getVersionInfo env thiz w).1 = some n ∧
      (Java_com_whispertflite_native_WhisperNative_getVersionInfo env thiz w).2.jvm.deref
        (some n) = some units ∧
      0 < units.length ∧ units.length = 56 := by
  obtain ⟨h1, h2, -, -⟩ := getVersionInfo_spec env h thiz w
  obtain ⟨n, hn⟩ := Option.ne_none_iff_exists'.mp h1
  refine ⟨n, javaString hello, hn, ?_, ?_, ?_⟩
  · rw [← hn]
    exact h2
  · rw [javaString_hello, stdString_hello]
    decide
  · rw [javaString_hello, stdString_hello]
    rfl

/-- Witness of C2: the reference environment meets the contract, and on a fresh
process the version query returns a reference to a string of 56 code units. -/
theorem getVersionInfo_nonnull_nonempty_witness :
    (refEnv 0).Conforms ∧
    ∃ (n : Nat) (units : List Nat),
      (Java_com_whispertflite_native_WhisperNative_getVersionInfo (refEnv 0) none
        World.empty).1 = some n ∧
      (Java_com_whispertflite_native_WhisperNative_getVersionInfo (refEnv 0) none
        World.empty).2.jvm.deref (some n) = some units ∧
      0 < units.length ∧ units.length = 56 :=
  ⟨refEnv_conforms 0,
    getVersionInfo_nonnull_nonempty (refEnv 0) (refEnv_conforms 0) none World.empty⟩

/-- C4 as stated fails: on a fresh process with no exception pending, a call of
`getVersionInfo` through a function table whose `NewStringUTF` finds no memory
returns `NULL` and leaves `java.lang.OutOfMemoryError` pending for the managed
caller; and with no native storage left the construction of `hello` throws
`std::bad_alloc` out of the function. -/
theorem getVersionInfo_error_reaches_caller :
    World.empty.jvm.pending = none ∧
    (Java_com_whispertflite_native_WhisperNative_getVersionInfo oomEnv none
      World.empty).1 = none ∧
    (Java_com_whispertflite_native_WhisperNative_getVersionInfo oomEnv none
      World.empty).2.jvm.pending = some "java.lang.OutOfMemoryError" ∧
    Java_com_whispertflite_native_WhisperNative_getVersionInfo_outcome roomyHeap oomEnv none
      World.empty =
        Outcome.returned (none, ⟨⟨[], some "java.lang.OutOfMemoryError"⟩, []⟩) ∧
    Java_com_whispertflite_native_WhisperNative_getVersionInfo_outcome exhaustedHeap
      (refEnv 0) none World.empty = Outcome.thrown "std::bad_alloc" :=
  ⟨rfl, rfl, rfl, rfl, rfl⟩

/-- C4, amended: `isSupported` cannot fail, and `getVersionInfo` fails only
through the platform and handles no failure.  `isSupported` throws nothing,
returns `JNI_FALSE` and leaves the managed side, pending exception included, as
it was, for every sink and environment.  `getVersionInfo` throws exactly when
storage for the 56 bytes of `hello` is not obtained, and then `std::bad_alloc`;
otherwise it returns, and what it returns is the reference of one call of
`NewStringUTF` on a C string that is valid modified UTF-8, with the managed
state that call left, unchecked.  So a pending exception after the call is one
that was pending before or that `NewStringUTF` raised; on an environment whose
`NewStringUTF` meets its contract the reference is not `NULL` and the pending
exception is what it was. -/
theorem operations_fail_only_through_platform {L : Type} (heap : NativeHeap)
    (sink : LogSink L) (env : JNIEnv) (thiz : jobject) (w : World L) :
    (∃ w2 : World L,
      Java_com_whispertflite_native_WhisperNative_isSupported_outcome sink env thiz w =
        Outcome.returned (JNI_FALSE, w2) ∧
      Java_com_whispertflite_native_WhisperNative_isSupported sink env thiz w =
        (JNI_FALSE, w2) ∧
      w2.jvm = w.jvm) ∧
    (heap.allocate 56 = false →
      Java_com_whispertflite_native_WhisperNative_getVersionInfo_outcome heap env thiz w =
        Outcome.thrown "std::bad_alloc") ∧
    (heap.allocate 56 = true →
      Java_com_whispertflite_native_WhisperNative_getVersionInfo_outcome heap env thiz w =
        Outcome.returned
          (Java_com_whispertflite_native_WhisperNative_getVersionInfo env thiz w)) ∧
    (∃ mem text : List Nat,
      mutf8Decode (cstring mem) = some text ∧
      Java_com_whispertflite_native_WhisperNative_getVersionInfo env thiz w =
        ((env.NewStringUTF mem w.jvm).1,
          { w with jvm := (env.NewStringUTF mem w.jvm).2 })) ∧
    (env.Conforms →
      (Java_com_whispertflite_native_WhisperNative_getVersionInfo env thiz w).1 ≠ none ∧
      (Java_com_whispertflite_native_WhisperNative_getVersionInfo env thiz w).2.jvm.pending
        = w.jvm.pending) := by
  have hlen : (stdString "WhisperNative v1.1 - whisper.cpp integration placeholder").length
      = 56 := by
    show (stdString hello).length = 56
    rw [stdString_hello]
    rfl
  refine ⟨⟨_, rfl, rfl, rfl⟩, ?_, ?_, ⟨c_str hello, javaString hello, hello_decodes, rfl⟩, ?_⟩
  · intro h0
    simp only [Java_com_whispertflite_native_WhisperNative_getVersionInfo_outcome,
      std_string, hlen, h0]
    rfl
  · intro h1
    simp only [Java_com_whispertflite_native_WhisperNative_getVersionInfo_outcome,
      std_string, hlen, h1]
    rfl
  · intro hc
    obtain ⟨k1, -, k3, -⟩ := getVersionInfo_spec env hc thiz w
    exact ⟨k1, k3⟩

/-- Witness of C4, amended: with native storage and the reference environment,
on a fresh process, `getVersionInfo` returns reference `0` with no exception
pending, and `isSupported` returns `JNI_FALSE` through a sink that reports
failure. -/
theorem operations_fail_only_through_platform_witness :
    roomyHeap.allocate 56 = true ∧ (refEnv 0).Conforms ∧
    Java_com_whispertflite_native_WhisperNative_getVersionInfo_outcome roomyHeap (refEnv 0)
      (some 3) World.empty =
        Outcome.returned
          (Java_com_whispertflite_native_WhisperNative_getVersionInfo (refEnv 0) (some 3)
            World.empty) ∧
    (Java_com_whispertflite_native_WhisperNative_getVersionInfo (refEnv 0) (some 3)
      World.empty).1 ≠ none ∧
    (Java_com_whispertflite_native_WhisperNative_getVersionInfo (refEnv 0) (some 3)
      World.empty).2.jvm.pending = none ∧
    ∃ w2 : World (List LogLine),
      Java_com_whispertflite_native_WhisperNative_isSupported_outcome (droppingSink (-1))
        oomEnv (some 3) World.empty = Outcome.returned (JNI_FALSE, w2) ∧
      w2.jvm = World.empty.jvm :=
  have k := operations_fail_only_through_platform roomyHeap (droppingSink (-1)) (refEnv 0)
    (some 3) World.empty
  have k0 := operations_fail_only_through_platform roomyHeap (droppingSink (-1)) oomEnv
    (some 3) World.empty
  ⟨rfl, refEnv_conforms 0, k.2.2.1 rfl, (k.2.2.2.2 (refEnv_conforms 0)).1,
    (k.2.2.2.2 (refEnv_conforms 0)).2, k0.1.elim fun w2 h => ⟨w2, h.1, h.2.2⟩⟩

/-- C5: the text `getVersionInfo` hands to `NewStringUTF` is the C string
"WhisperNative v1.1 - whisper.cpp integration placeholder", and on an
environment whose `NewStringUTF` meets its contract the returned string is that
text; it contains the marker "placeholder" and the name "whisper.cpp". -/
theorem getVersionInfo_names_placeholder {L : Type} (env : JNIEnv) (h : env.Conforms)
    (thiz : jobject) (w : World L) :
    Java_com_whispertflite_native_WhisperNative_getVersionInfo env thiz w =
      ((env.NewStringUTF
          (stdString "WhisperNative v1.1 - whisper.cpp integration placeholder" ++ [0])
          w.jvm).1,
        { w with jvm := (env.NewStringUTF
          (stdString "WhisperNative v1.1 - whisper.cpp integration placeholder" ++ [0])
          w.jvm).2 }) ∧
    cstring (stdString "WhisperNative v1.1 - whisper.cpp integration placeholder" ++ [0]) =
      stdString "WhisperNative v1.1 - whisper.cpp integration placeholder" ∧
    ∃ units : List Nat,
      (Java_com_whispertflite_native_WhisperNative_getVersionInfo env thiz w).2.jvm.deref
        (Java_com_whispertflite_native_WhisperNative_getVersionInfo env thiz w).1
          = some units ∧
      units = javaString "WhisperNative v1.1 - whisper.cpp integration placeholder" ∧
      javaString "placeholder" <:+: units ∧
      javaString "whisper.cpp" <:+: units := by
  obtain ⟨-, h2, -, -⟩ := getVersionInfo_spec env h thiz w
  refine ⟨rfl, cstring_c_str_hello, javaString hello, h2, rfl, ?_, ?_⟩
  · exact ⟨javaString "WhisperNative v1.1 - whisper.cpp integration ", [], by decide⟩
  · exact ⟨javaString "WhisperNative v1.1 - ", javaString " integration placeholder",
      by decide⟩

/-- Witness of C5: on a fresh process, with the reference environment, the
version query hands over the literal and returns it, marker and name included. -/
theorem getVersionInfo_names_placeholder_witness :
    (refEnv 0).Conforms ∧
    ∃ units : List Nat,
      (Java_com_whispertflite_native_WhisperNative_getVersionInfo (refEnv 0) none
        World.empty).2.jvm.deref
        (Java_com_whispertflite_native_WhisperNative_getVersionInfo (refEnv 0) none
          World.empty).1 = some units ∧
      units = javaString "WhisperNative v1.1 - whisper.cpp integration placeholder" ∧
      javaString "placeholder" <:+: units ∧
      javaString "whisper.cpp" <:+: units :=
  ⟨refEnv_conforms 0,
    (getVersionInfo_names_placeholder (refEnv 0) (refEnv_conforms 0) none World.empty).2.2⟩

/-! ## Sequences of calls: lemmas -/

theorem step_fst {L : Type} (sink : LogSink L) (c : Call) (w : World L)
    (h : ∀ env thiz, c = Call.getVersionInfo env thiz → env.Conforms) :
    (step sink c w).1 = specRet c := by
  cases c with
  | getVersionInfo env thiz =>
    obtain ⟨-, h2, -, -⟩ := getVersionInfo_spec env (h env thiz rfl) thiz w
    exact congrArg Ret.text h2
  | isSupported env thiz => rfl

theorem run_fst {L : Type} (sink : LogSink L) (cs : List Call) (w : World L)
    (h : ∀ env thiz, Call.getVersionInfo env thiz ∈ cs → env.Conforms) :
    (run sink cs w).1 = cs.map specRet := by
  induction cs generalizing w with
  | nil => rfl
  | cons c rest ih =>
    have hc : (step sink c w).1 = specRet c :=
      step_fst sink c w fun env thiz e => h env thiz (e ▸ List.mem_cons_self c rest)
    have hr := ih (step sink c w).2 fun env thiz m => h env thiz (List.mem_cons_of_mem c m)
    show (step sink c w).1 :: (run sink rest (step sink c w).2).1 = specRet c :: rest.map specRet
    rw [hc, hr]

theorem specRet_sameOp (c1 c2 : Call) (h : c1.sameOp c2 = true) : specRet c1 = specRet c2 := by
  cases c1 <;> cases c2 <;> first | rfl | exact absurd h Bool.false_ne_true

theorem run_log_recording (ret : Int) (cs : List Call) (w : World (List LogLine)) :
    (run (recordingSink ret) cs w).2.log =
      w.log ++ List.replicate (cs.countP Call.isProbe)
        ⟨android_LogPriority.ANDROID_LOG_INFO, "WhisperNative",
          "Native whisper support check - placeholder implementation"⟩ := by
  induction cs generalizing w with
  | nil => simp [run]
  | cons c rest ih =>
    show (run (recordingSink ret) rest (step (recordingSink ret) c w).2).2.log = _
    rw [ih]
    cases c with
    | getVersionInfo env thiz =>
      simp [step, Java_com_whispertflite_native_WhisperNative_getVersionInfo, Call.isProbe]
    | isSupported env thiz =>
      simp [step, Java_com_whispertflite_native_WhisperNative_isSupported, LOGI, LOG_TAG,
        recordingSink, Call.isProbe, List.replicate_succ]

theorem sessionA_conforms :
    ∀ env thiz, Call.getVersionInfo env thiz ∈ sessionA → env.Conforms := by
  intro env thiz hm
  simp only [sessionA, List.mem_cons, Call.getVersionInfo.injEq, List.mem_singleton,
    reduceCtorEq, false_or, or_false, List.not_mem_nil] at hm
  rcases hm with ⟨rfl, -⟩ | ⟨rfl, -⟩ <;> exact refEnv_conforms _

theorem sessionB_conforms :
    ∀ env thiz, Call.getVersionInfo env thiz ∈ sessionB → env.Conforms := by
  intro env thiz hm
  simp only [sessionB, List.mem_cons, Call.getVersionInfo.injEq, List.mem_singleton,
    reduceCtorEq, false_or, or_false, List.not_mem_nil] at hm
  rcases hm with ⟨rfl, -⟩
  exact refEnv_conforms _

/-! ## The claims on sequences of calls and on independence -/

/-- C3: determinism and history independence.  Take any two finite sequences of
calls, in any order, run from any two process states over any two log sinks,
where every version query goes through an environment whose `NewStringUTF`
meets its contract.  Every call returns (a run yields one result per call), and
whenever a call of the first run and a call of the second are calls of the same
operation, they return the same value: the same string content for
`getVersionInfo`, the same boolean for `isSupported`.  With both runs the same,
this is determinism across the calls of one run. -/
theorem calls_deterministic {L1 L2 : Type} (sink1 : LogSink L1) (sink2 : LogSink L2)
    (cs1 cs2 : List Call) (w1 : World L1) (w2 : World L2)
    (h1 : ∀ env thiz, Call.getVersionInfo env thiz ∈ cs1 → env.Conforms)
    (h2 : ∀ env thiz, Call.getVersionInfo env thiz ∈ cs2 → env.Conforms) :
    (run sink1 cs1 w1).1.length = cs1.length ∧
    (run sink2 cs2 w2).1.length = cs2.length ∧
    ∀ (i j : Nat) (c1 c2 : Call) (r1 r2 : Ret),
      cs1[i]? = some c1 → cs2[j]? = some c2 → c1.sameOp c2 = true →
      (run sink1 cs1 w1).1[i]? = some r1 → (run sink2 cs2 w2).1[j]? = some r2 →
      r1 = r2 := by
  rw [run_fst sink1 cs1 w1 h1, run_fst sink2 cs2 w2 h2]
  refine ⟨List.length_map _ _, List.length_map _ _, ?_⟩
  intro i j c1 c2 r1 r2 e1 e2 hs g1 g2
  rw [List.getElem?_map, e1] at g1
  rw [List.getElem?_map, e2] at g2
  have k1 : specRet c1 = r1 := Option.some.inj g1
  have k2 : specRet c2 = r2 := Option.some.inj g2
  rw [← k1, ← k2]
  exact specRet_sameOp c1 c2 hs

/-- Witness of C3: the two sample sessions, one on a fresh process with a sink
that records, one on a used process with a sink that drops every line. -/
theorem calls_deterministic_witness :
    (∀ env thiz, Call.getVersionInfo env thiz ∈ sessionA → env.Conforms) ∧
    (∀ env thiz, Call.getVersionInfo env thiz ∈ sessionB → env.Conforms) ∧
    (run (recordingSink 1) sessionA World.empty).1.length = sessionA.length ∧
    (run (droppingSink (-1)) sessionB World.used).1.length = sessionB.length ∧
    ∀ (i j : Nat) (c1 c2 : Call) (r1 r2 : Ret),
      sessionA[i]? = some c1 → sessionB[j]? = some c2 → c1.sameOp c2 = true →
      (run (recordingSink 1) sessionA World.empty).1[i]? = some r1 →
      (run (droppingSink (-1)) sessionB World.used).1[j]? = some r2 →
      r1 = r2 :=
  ⟨sessionA_conforms, sessionB_conforms,
    calls_deterministic (recordingSink 1) (droppingSink (-1)) sessionA sessionB
      World.empty World.used sessionA_conforms sessionB_conforms⟩

/-- C6: side effects are limited to diagnostic logging.  On the state of the
log sink, `getVersionInfo` leaves the log as it was; `isSupported` performs
exactly one log write, with tag "WhisperNative" and informational severity, and
changes nothing else (the managed side stays as it was); on a sink that records
what it is given this appends exactly one line.  Over any sequence of calls the
recorded log grows by exactly one such line per call of `isSupported`, so every
line either operation emits has the tag "WhisperNative" and informational (hence
informational or error) severity. -/
theorem side_effects_only_logging (ret : Int) (env : JNIEnv) (thiz : jobject)
    (w : World (List LogLine)) (cs : List Call) :
    (∀ (L : Type) (v : World L),
      (Java_com_whispertflite_native_WhisperNative_getVersionInfo env thiz v).2.log = v.log) ∧
    (∀ (L : Type) (sink : LogSink L) (v : World L),
      (Java_com_whispertflite_native_WhisperNative_isSupported sink env thiz v).2 =
        { v with log := (sink.__android_log_print android_LogPriority.ANDROID_LOG_INFO
            "WhisperNative" "Native whisper support check - placeholder implementation"
            v.log).2 }) ∧
    (Java_com_whispertflite_native_WhisperNative_isSupported (recordingSink ret) env thiz
        w).2.log =
      w.log ++ [⟨android_LogPriority.ANDROID_LOG_INFO, "WhisperNative",
        "Native whisper support check - placeholder implementation"⟩] ∧
    (Java_com_whispertflite_native_WhisperNative_isSupported (recordingSink ret) env thiz
        w).2.jvm = w.jvm ∧
    ∃ emitted : List LogLine,
      (run (recordingSink ret) cs w).2.log = w.log ++ emitted ∧
      emitted.length = cs.countP Call.isProbe ∧
      ∀ line ∈ emitted,
        line.tag = "WhisperNative" ∧
        line.prio = android_LogPriority.ANDROID_LOG_INFO ∧
        (line.prio = android_LogPriority.ANDROID_LOG_INFO ∨
          line.prio = android_LogPriority.ANDROID_LOG_ERROR) := by
  refine ⟨fun _ _ => rfl, fun _ _ _ => rfl, rfl, rfl, _, run_log_recording ret cs w,
    List.length_replicate _ _, ?_⟩
  intro line hl
  rw [List.eq_of_mem_replicate hl]
  exact ⟨rfl, rfl, Or.inl rfl⟩

/-- C7: logging does not affect results.  Two runs of `isSupported` that differ
in the log sink, that is in what the log write returns and in whether and how
the sink takes the line, both return, return the same boolean, and leave the
same managed state; the result of `getVersionInfo` and the managed state it
leaves are the same whatever the state of the log sink. -/
theorem logging_does_not_affect_results {L1 L2 : Type} (sink1 : LogSink L1)
    (sink2 : LogSink L2) (env : JNIEnv) (thiz : jobject) (j : JVM) (l1 : L1) (l2 : L2) :
    (∃ (b : jboolean) (v1 : World L1) (v2 : World L2),
      Java_com_whispertflite_native_WhisperNative_isSupported sink1 env thiz ⟨j, l1⟩
        = (b, v1) ∧
      Java_com_whispertflite_native_WhisperNative_isSupported sink2 env thiz ⟨j, l2⟩
        = (b, v2) ∧
      v1.jvm = v2.jvm) ∧
    (Java_com_whispertflite_native_WhisperNative_getVersionInfo env thiz
        (⟨j, l1⟩ : World L1)).1 =
      (Java_com_whispertflite_native_WhisperNative_getVersionInfo env thiz
        (⟨j, l2⟩ : World L2)).1 ∧
    (Java_com_whispertflite_native_WhisperNative_getVersionInfo env thiz
        (⟨j, l1⟩ : World L1)).2.jvm =
      (Java_com_whispertflite_native_WhisperNative_getVersionInfo env thiz
        (⟨j, l2⟩ : World L2)).2.jvm :=
  ⟨⟨_, _, _, rfl, rfl, rfl⟩, rfl, rfl⟩

/-- C8: the operations take no input.  `isSupported` gives the same boolean and
the same state for any two environment handles and any two receivers.
`getVersionInfo` does not look at the receiver, and hands the same memory to
`NewStringUTF` of whatever environment it is given; for any two environments
whose `NewStringUTF` meets its contract, and any two receivers, the returned
strings have the same content. -/
theorem results_independent_of_parameters {L : Type} (sink : LogSink L)
    (env1 env2 : JNIEnv) (h1 : env1.Conforms) (h2 : env2.Conforms)
    (thiz1 thiz2 : jobject) (w : World L) :
    Java_com_whispertflite_native_WhisperNative_isSupported sink env1 thiz1 w =
      Java_com_whispertflite_native_WhisperNative_isSupported sink env2 thiz2 w ∧
    Java_com_whispertflite_native_WhisperNative_getVersionInfo env1 thiz1 w =
      Java_com_whispertflite_native_WhisperNative_getVersionInfo env1 thiz2 w ∧
    (∃ mem : List Nat, ∀ (env : JNIEnv) (thiz : jobject) (v : World L),
      Java_com_whispertflite_native_WhisperNative_getVersionInfo env thiz v =
        ((env.NewStringUTF mem v.jvm).1, { v with jvm := (env.NewStringUTF mem v.jvm).2 })) ∧
    (Java_com_whispertflite_native_WhisperNative_getVersionInfo env1 thiz1 w).2.jvm.deref
        (Java_com_whispertflite_native_WhisperNative_getVersionInfo env1 thiz1 w).1 =
      (Java_com_whispertflite_native_WhisperNative_getVersionInfo env2 thiz2 w).2.jvm.deref
        (Java_com_whispertflite_native_WhisperNative_getVersionInfo env2 thiz2 w).1 := by
  obtain ⟨-, k1, -, -⟩ := getVersionInfo_spec env1 h1 thiz1 w
  obtain ⟨-, k2, -, -⟩ := getVersionInfo_spec env2 h2 thiz2 w
  exact ⟨rfl, rfl, ⟨c_str hello, fun _ _ _ => rfl⟩, k1.trans k2.symm⟩

/-- Witness of C8: two reference environments that place the string at
different references, two receivers, a used process. -/
theorem results_independent_of_parameters_witness :
    (refEnv 0).Conforms ∧ (refEnv 3).Conforms ∧
    (Java_com_whispertflite_native_WhisperNative_getVersionInfo (refEnv 0) none
        World.used).1 = some 2 ∧
    (Java_com_whispertflite_native_WhisperNative_getVersionInfo (refEnv 3) (some 9)
        World.used).1 = some 5 ∧
    (Java_com_whispertflite_native_WhisperNative_getVersionInfo (refEnv 0) none
        World.used).2.jvm.deref
        (Java_com_whispertflite_native_WhisperNative_getVersionInfo (refEnv 0) none
          World.used).1 =
      (Java_com_whispertflite_native_WhisperNative_getVersionInfo (refEnv 3) (some 9)
        World.used).2.jvm.deref
        (Java_com_whispertflite_native_WhisperNative_getVersionInfo (refEnv 3) (some 9)
          World.used).1 ∧
    Java_com_whispertflite_native_WhisperNative_isSupported (recordingSink 1) (refEnv 0)
        none World.used =
      Java_com_whispertflite_native_WhisperNative_isSupported (recordingSink 1) (refEnv 3)
        (some 9) World.used :=
  have k := results_independent_of_parameters (recordingSink 1) (refEnv 0) (refEnv 3)
    (refEnv_conforms 0) (refEnv_conforms 3) none (some 9) World.used
  ⟨refEnv_conforms 0, refEnv_conforms 3, by
      simp only [Java_com_whispertflite_native_WhisperNative_getVersionInfo, refEnv,
        hello_decodes]
      rfl, by
      simp only [Java_com_whispertflite_native_WhisperNative_getVersionInfo, refEnv,
        hello_decodes]
      rfl, k.2.2.2, k.1⟩

/-- C9: the version text survives the conversion unchanged.  Every byte of the
literal of `getVersionInfo` is printable ASCII (0x20 to 0x7E), so none is NUL
and none belongs to a multi-byte sequence; the C string behind `c_str()` is the
whole `std::string`; the bytes decode as standard UTF-8 to the characters of
the literal and as modified UTF-8 to the same values, one code unit per byte;
and on an environment whose `NewStringUTF` meets its contract the returned
string holds exactly the characters of the literal. -/
theorem version_text_survives_conversion {L : Type} (env : JNIEnv) (h : env.Conforms)
    (thiz : jobject) (w : World L) :
    (∀ b ∈ stdString hello, 0x20 ≤ b ∧ b ≤ 0x7E) ∧
    0 ∉ stdString hello ∧
    (∀ b ∈ stdString hello, b < 0x80) ∧
    cstring (c_str hello) = stdString hello ∧
    utf8Decode (cstring (c_str hello)) = some (hello.toList.map Char.toNat) ∧
    mutf8Decode (cstring (c_str hello)) = some (hello.toList.map Char.toNat) ∧
    (hello.toList.map Char.toNat).length = (stdString hello).length ∧
    hello.toList.map Char.toNat = stdString hello ∧
    (Java_com_whispertflite_native_WhisperNative_getVersionInfo env thiz w).2.jvm.deref
        (Java_com_whispertflite_native_WhisperNative_getVersionInfo env thiz w).1 =
      some (hello.toList.map Char.toNat) := by
  have hc : hello.toList.map Char.toNat = stdString hello := by decide
  obtain ⟨-, h2, -, -⟩ := getVersionInfo_spec env h thiz w
  refine ⟨hello_printable, ?_, ?_, cstring_c_str_hello, ?_, ?_, ?_, hc, ?_⟩
  · intro h0
    have := hello_printable 0 h0
    omega
  · intro b hb
    have := hello_printable b hb
    omega
  · rw [cstring_c_str_hello, hc]
    exact utf8Decode_ascii (stdString hello) fun b hb => by
      have := hello_printable b hb
      omega
  · rw [hc, ← javaString_hello]
    exact hello_decodes
  · rw [hc]
  · rw [hc, ← javaString_hello]
    exact h2

/-- Witness of C9: the reference environment on a fresh process. -/
theorem version_text_survives_conversion_witness :
    (refEnv 0).Conforms ∧
    cstring (c_str hello) = stdString hello ∧
    (Java_com_whispertflite_native_WhisperNative_getVersionInfo (refEnv 0) none
        World.empty).2.jvm.deref
        (Java_com_whispertflite_native_WhisperNative_getVersionInfo (refEnv 0) none
          World.empty).1 =
      some (hello.toList.map Char.toNat) :=
  have k := version_text_survives_conversion (refEnv 0) (refEnv_conforms 0) none World.empty
  ⟨refEnv_conforms 0, k.2.2.2.1, k.2.2.2.2.2.2.2.2⟩

end WhisperNative
